import Mathlib

/-!
Shallow embedding of the Goossens product-exporter core
(`scripts/create-export.js`, entry point `createExport`).

Buffers are modelled by their UTF-8 decoded text (`Bytes := String`);
JavaScript strings are modelled as Lean strings, and the character-level
string primitives used by the source (`toLowerCase`, `trim`, `endsWith`,
`includes`, `replace(/"/g,'""')`, `Array.prototype.join`) are embedded as
character-list functions so that every definition is executable and
kernel-reducible.  External collaborators (the `xlsx` library and
`fs.readFileSync`) are oracle parameters collected in `Env`; a failed
filesystem read and a property access on a missing value are modelled as
thrown `JsError`s, so `createExport` returns `Except JsError ExportResult`.
-/

namespace GoossensExporter

/-- Buffers are modelled by their decoded text content. -/
abbrev Bytes := String

/-- Models `String.prototype.toLowerCase` (character-wise, ASCII-adequate). -/
def toLowerStr (s : String) : String := String.mk (s.data.map Char.toLower)

/-- Models `s.startsWith(p)` from JavaScript. -/
def jsStartsWith (s p : String) : Bool := List.isPrefixOf p.data s.data

/-- Models `s.toLowerCase().endsWith(suffix)` from JavaScript. -/
def lowerEndsWith (s sfx : String) : Bool := List.isSuffixOf sfx.data (toLowerStr s).data

/-- Models `String.prototype.trim` (drop whitespace at both ends). -/
def trimStr (s : String) : String :=
  String.mk (((s.data.dropWhile Char.isWhitespace).reverse.dropWhile Char.isWhitespace).reverse)

/-- Models `filename.replace(/\.sfx$/i, repl)`: the regexes in the source
(`/\.xlsx$/i`, `/\.csv$/i`) match a literal suffix case-insensitively at the
end of the string and splice in the replacement; a non-matching name is
returned unchanged. -/
def replaceSuffixCI (s sfx repl : String) : String :=
  if lowerEndsWith s sfx then
    String.mk (s.data.take (s.data.length - sfx.data.length)) ++ repl
  else s

/-- The fixed `prefixes` list from the source. -/
def prefixes : List String :=
  ["Google", "Option1", "Option2", "Option3", "Image Src", "Image Position",
   "Variant Image", "Image Alt Text", "Unit Price"]

/-- `prefixes.some((prefix) => headerStr.startsWith(prefix))`. -/
def isPrefixedHeader (header : String) : Bool :=
  prefixes.any (fun p => jsStartsWith header p)

/-- `parseCSV`'s character loop.  The JavaScript original walks the content
with an index `i`, a `currentRow`, a `currentField` and an `insideQuotes`
flag; here the cases are organised by the value of `insideQuotes`, and the
manual `i++` lookahead skips of the source (the `""` escape and `\r\n`) are
modelled by matching two characters at once.  Case-by-case correspondence
with the source loop:
* inside quotes, `""` appends a literal quote and skips both characters;
* inside quotes, a single `"` leaves quoted mode;
* inside quotes, any other character (including `,`, `\n`, `\r`) is
  appended to the current field;
* outside quotes, `"` enters quoted mode;
* outside quotes, `,` terminates the current field;
* outside quotes, `\n`, `\r\n` and `\r` terminate the current record when
  there is a pending field or a started row, and are skipped otherwise;
* any other character is appended to the current field;
* at the end of the input a pending field or started row becomes a final
  record. -/
def parseCSVAux : List Char → List String → List Char → Bool → List (List String)
  | [], currentRow, currentField, _insideQuotes =>
      if currentField ≠ [] ∨ currentRow ≠ [] then
        [currentRow ++ [String.mk currentField]]
      else []
  | '"' :: '"' :: rest, currentRow, currentField, true =>
      parseCSVAux rest currentRow (currentField ++ ['"']) true
  | '"' :: rest, currentRow, currentField, true =>
      parseCSVAux rest currentRow currentField false
  | c :: rest, currentRow, currentField, true =>
      parseCSVAux rest currentRow (currentField ++ [c]) true
  | '"' :: rest, currentRow, currentField, false =>
      parseCSVAux rest currentRow currentField true
  | ',' :: rest, currentRow, currentField, false =>
      parseCSVAux rest (currentRow ++ [String.mk currentField]) [] false
  | '\n' :: rest, currentRow, currentField, false =>
      if currentField ≠ [] ∨ currentRow ≠ [] then
        (currentRow ++ [String.mk currentField]) :: parseCSVAux rest [] [] false
      else parseCSVAux rest currentRow currentField false
  | '\r' :: '\n' :: rest, currentRow, currentField, false =>
      if currentField ≠ [] ∨ currentRow ≠ [] then
        (currentRow ++ [String.mk currentField]) :: parseCSVAux rest [] [] false
      else parseCSVAux rest currentRow currentField false
  | '\r' :: rest, currentRow, currentField, false =>
      if currentField ≠ [] ∨ currentRow ≠ [] then
        (currentRow ++ [String.mk currentField]) :: parseCSVAux rest [] [] false
      else parseCSVAux rest currentRow currentField false
  | c :: rest, currentRow, currentField, false =>
      parseCSVAux rest currentRow (currentField ++ [c]) false

/-- `parseCSV(content)` from the source. -/
def parseCSV (content : String) : List (List String) :=
  parseCSVAux content.data [] [] false

/-- Models `fieldStr.replace(/"/g, '""')`: double every quote character. -/
def escapeQuotes : List Char → List Char
  | [] => []
  | c :: cs => if c = '"' then '"' :: '"' :: escapeQuotes cs else c :: escapeQuotes cs

/-- The per-field step of `rowToCSV`: quote-wrap (doubling internal quotes)
when the field contains a comma, quote, newline or carriage return. -/
def escapeField (f : String) : String :=
  if f.data.contains ',' ∨ f.data.contains '"' ∨ f.data.contains '\n' ∨ f.data.contains '\r' then
    "\"" ++ String.mk (escapeQuotes f.data) ++ "\""
  else f

/-- Models `Array.prototype.join(sep)`. -/
def joinSep (sep : String) : List String → String
  | [] => ""
  | [x] => x
  | x :: xs => x ++ sep ++ joinSep sep xs

/-- `rowToCSV(row)` from the source. -/
def rowToCSV (row : List String) : String :=
  joinSep "," (row.map escapeField)

/-- The `indicesToRemove` set built by `transformData` from the header row
(`headers.forEach((header, index) => ...)`). -/
def indicesToRemove (headers : List String) : List Nat :=
  (headers.enum.filter (fun p => isPrefixedHeader p.2)).map (fun p => p.1)

/-- `row.filter((_, index) => !indicesToRemove.has(index))`. -/
def filterColumns (headers : List String) (row : List String) : List String :=
  (row.enum.filter (fun p => !(indicesToRemove headers).contains p.1)).map (fun p => p.2)

/-- `filteredRows[0].findIndex((header) => String(header) === "Variant SKU")`:
JavaScript `findIndex` yields `-1` when no element matches. -/
def variantSKUIndex (headers : List String) : Int :=
  match headers.findIdx? (fun h => h == "Variant SKU") with
  | some i => (i : Int)
  | none => -1

/-- `row[idx]` with JavaScript semantics: a negative or out-of-range index
reads `undefined`, modelled as the empty string. -/
def cellAt (row : List String) (idx : Int) : String :=
  if idx < 0 then "" else row.getD idx.toNat ""

/-- `row[variantSKUIndex] ? row[variantSKUIndex].toString().trim() : ""`
(an absent cell and an empty-string cell are both falsy). -/
def rowSKU (row : List String) (idx : Int) : String :=
  let c := cellAt row idx
  if c = "" then "" else trimStr c

/-- `row[0] ? row[0].toString().trim() : ""`. -/
def rowHandle (row : List String) : String :=
  let c := row.getD 0 ""
  if c = "" then "" else trimStr c

/-- The data-row loop of `transformData` (`for i = 1 .. filteredRows.length`):
keeps a row when its trimmed SKU is non-empty, and inserts its handle into
the `handleMap` set (which is never read). -/
def transformDataLoop (skuIdx : Int) : List (List String) → List String → List (List String)
  | [], _handleMap => []
  | row :: rest, handleMap =>
      let handle := rowHandle row
      let sku := rowSKU row skuIdx
      if sku ≠ "" then row :: transformDataLoop skuIdx rest (handleMap.insert handle)
      else transformDataLoop skuIdx rest handleMap

/-- `transformData(rows)` from the source. -/
def transformData (rows : List (List String)) : List (List String) :=
  match rows with
  | [] => []
  | headers :: _ =>
      let filteredRows := rows.map (fun row => filterColumns headers row)
      let vIdx := variantSKUIndex (filteredRows.headD [])
      filteredRows.headD [] :: transformDataLoop vIdx filteredRows.tail []

/-- Modelled from the spec (§4.5, claim C8's reference definition): the same
transformation with the unused handle-set bookkeeping omitted — rows are
filtered purely by SKU presence. -/
def transformDataSpec (rows : List (List String)) : List (List String) :=
  match rows with
  | [] => []
  | headers :: _ =>
      let filteredRows := rows.map (fun row => filterColumns headers row)
      let vIdx := variantSKUIndex (filteredRows.headD [])
      filteredRows.headD [] :: filteredRows.tail.filter (fun row => rowSKU row vIdx ≠ "")

/-- The shapes a provided `file` argument can take: a `Buffer`, a path
string, an object exposing a `.buffer`, or any other (truthy) value. -/
inductive FileInput where
  | buffer (b : Bytes)
  | path (p : String)
  | fileObj (b : Bytes)
  | other
deriving Repr, DecidableEq

/-- The result object returned by `createExport`; absent keys are `none`. -/
structure ExportResult where
  success : Bool
  filename : Option String := none
  buffer : Option Bytes := none
  rowCount : Option Int := none
  data : Option (List (List String)) := none
  error : Option String := none
deriving Repr, DecidableEq

/-- Exceptions the entry point can raise (it has no `try`/`catch`):
a `TypeError` from a property access on a missing value
(`filename.toLowerCase()` with no filename), or a thrown filesystem error
from `fs.readFileSync`. -/
inductive JsError where
  | typeError
  | fsError (p : String)
deriving Repr, DecidableEq

/-- The external collaborators used by `createExport`, as oracles:
`fs.readFileSync` (`none` models a throwing read), the XLSX first-sheet
reader (`XLSX.read` + `sheet_to_json`), and the XLSX workbook writer. -/
structure Env where
  readFileSync : String → Option Bytes
  xlsxSheetToJson : Bytes → List (List String)
  xlsxWrite : List (List String) → Bytes

/-- `!file`: absent, or a falsy provided value (the empty path string). -/
def fileIsFalsy : Option FileInput → Bool
  | none => true
  | some (.path "") => true
  | some _ => false

/-- `createExport({file, filename})` from the source, in source order:
falsy-file check, format detection from the filename, input normalization,
format dispatch to a parser, `transformData`, then output generation. -/
def createExport (env : Env) (file : Option FileInput) (filename : Option String) :
    Except JsError ExportResult :=
  if fileIsFalsy file then
    .ok { success := false, error := some "No file provided" }
  else
    match filename with
    | none => .error .typeError
    | some fname =>
        let isXlsx := lowerEndsWith fname ".xlsx"
        let isCsv := lowerEndsWith fname ".csv"
        let normalized : Except JsError (Option Bytes) :=
          match file with
          | some (.buffer b) => .ok (some b)
          | some (.path p) =>
              match env.readFileSync p with
              | some b => .ok (some b)
              | none => .error (.fsError p)
          | some (.fileObj b) => .ok (some b)
          | some .other => .ok none
          | none => .ok none
        match normalized with
        | .error e => .error e
        | .ok none => .ok { success := false, error := some "Invalid file format" }
        | .ok (some fileBuffer) =>
            match (if isXlsx then some (env.xlsxSheetToJson fileBuffer)
                   else if isCsv then some (parseCSV fileBuffer)
                   else none) with
            | none => .ok { success := false, error := some "Unsupported file format" }
            | some rows =>
                let transformedData := transformData rows
                if transformedData.length > 0 then
                  if isXlsx then
                    .ok { success := true,
                          filename := some (replaceSuffixCI fname ".xlsx" "-export.xlsx"),
                          buffer := some (env.xlsxWrite transformedData),
                          rowCount := some ((transformedData.length : Int) - 1),
                          data := some transformedData }
                  else
                    .ok { success := true,
                          filename := some (replaceSuffixCI fname ".csv" "-export.csv"),
                          buffer := some (joinSep "\n" (transformedData.map rowToCSV)),
                          rowCount := some ((transformedData.length : Int) - 1),
                          data := some transformedData }
                else
                  .ok { success := false, error := some "No data to export" }

/-- A concrete environment: an empty filesystem and trivial XLSX oracles. -/
def envEmpty : Env :=
  { readFileSync := fun _ => none
    xlsxSheetToJson := fun _ => []
    xlsxWrite := fun _ => "" }

instance {e a : Type} [DecidableEq e] [DecidableEq a] : DecidableEq (Except e a)
  | .error x, .error y =>
      if h : x = y then .isTrue (by rw [h]) else .isFalse (fun c => h (by injection c))
  | .error _, .ok _ => .isFalse (fun c => by injection c)
  | .ok _, .error _ => .isFalse (fun c => by injection c)
  | .ok x, .ok y =>
      if h : x = y then .isTrue (by rw [h]) else .isFalse (fun c => h (by injection c))

/-! ### Generic helper lemmas -/

theorem mk_data (s : String) : String.mk s.data = s := rfl

theorem data_ne_nil {s : String} (h : s ≠ "") : s.data ≠ [] := by
  intro hd
  exact h (by cases s; simp_all)

/-! ### Step lemmas for the `parseCSV` character loop -/

theorem parseCSVAux_nil (row : List String) (field : List Char) (q : Bool) :
    parseCSVAux [] row field q =
      if field ≠ [] ∨ row ≠ [] then [row ++ [String.mk field]] else [] := by
  rw [parseCSVAux.eq_def]

theorem parseCSVAux_quote2_inQ (rest : List Char) (row : List String) (field : List Char) :
    parseCSVAux ('"' :: '"' :: rest) row field true =
      parseCSVAux rest row (field ++ ['"']) true := by
  rw [parseCSVAux.eq_def]
  split <;> aesop

theorem parseCSVAux_close_inQ (rest : List Char) (row : List String) (field : List Char)
    (h : rest.head? ≠ some '"') :
    parseCSVAux ('"' :: rest) row field true = parseCSVAux rest row field false := by
  rw [parseCSVAux.eq_def]
  split <;> aesop

theorem parseCSVAux_char_inQ (c : Char) (hc : c ≠ '"') (rest : List Char) (row : List String)
    (field : List Char) :
    parseCSVAux (c :: rest) row field true = parseCSVAux rest row (field ++ [c]) true := by
  rw [parseCSVAux.eq_def]
  split <;> aesop

theorem parseCSVAux_quote_noQ (rest : List Char) (row : List String) (field : List Char) :
    parseCSVAux ('"' :: rest) row field false = parseCSVAux rest row field true := by
  rw [parseCSVAux.eq_def]
  split <;> aesop

theorem parseCSVAux_comma_noQ (rest : List Char) (row : List String) (field : List Char) :
    parseCSVAux (',' :: rest) row field false =
      parseCSVAux rest (row ++ [String.mk field]) [] false := by
  rw [parseCSVAux.eq_def]
  split <;> aesop

theorem parseCSVAux_nl_noQ (rest : List Char) (row : List String) (field : List Char) :
    parseCSVAux ('\n' :: rest) row field false =
      if field ≠ [] ∨ row ≠ [] then
        (row ++ [String.mk field]) :: parseCSVAux rest [] [] false
      else parseCSVAux rest row field false := by
  rw [parseCSVAux.eq_def]
  split <;> aesop

theorem parseCSVAux_char_noQ (c : Char) (hc1 : c ≠ '"') (hc2 : c ≠ ',') (hc3 : c ≠ '\n')
    (hc4 : c ≠ '\r') (rest : List Char) (row : List String) (field : List Char) :
    parseCSVAux (c :: rest) row field false = parseCSVAux rest row (field ++ [c]) false := by
  rw [parseCSVAux.eq_def]
  split <;> aesop

/-! ### The serializer/parser round trip -/

theorem aux_consume_escaped (l : List Char) (rest : List Char) (row : List String)
    (field : List Char) (h : rest.head? ≠ some '"') :
    parseCSVAux (escapeQuotes l ++ '"' :: rest) row field true =
      parseCSVAux rest row (field ++ l) false := by
  induction l generalizing field with
  | nil =>
      simp only [escapeQuotes, List.nil_append, List.append_nil]
      exact parseCSVAux_close_inQ rest row field h
  | cons c cs ih =>
      by_cases hc : c = '"'
      · subst hc
        rw [show escapeQuotes ('"' :: cs) = '"' :: '"' :: escapeQuotes cs by
          simp [escapeQuotes]]
        rw [List.cons_append, List.cons_append, parseCSVAux_quote2_inQ, ih]
        simp
      · rw [show escapeQuotes (c :: cs) = c :: escapeQuotes cs by simp [escapeQuotes, hc]]
        rw [List.cons_append, parseCSVAux_char_inQ c hc, ih]
        simp

theorem aux_consume_plain (l : List Char) (rest : List Char) (row : List String)
    (field : List Char)
    (h : ∀ c ∈ l, c ≠ '"' ∧ c ≠ ',' ∧ c ≠ '\n' ∧ c ≠ '\r') :
    parseCSVAux (l ++ rest) row field false = parseCSVAux rest row (field ++ l) false := by
  induction l generalizing field with
  | nil => simp
  | cons c cs ih =>
      obtain ⟨h1, h2, h3, h4⟩ := h c (by simp)
      have hall : ∀ x ∈ cs, x ≠ '"' ∧ x ≠ ',' ∧ x ≠ '\n' ∧ x ≠ '\r' :=
        fun x hx => h x (List.mem_cons_of_mem c hx)
      rw [List.cons_append, parseCSVAux_char_noQ c h1 h2 h3 h4, ih (field ++ [c]) hall]
      simp

theorem aux_consume_field (f : String) (rest : List Char) (row : List String)
    (h : rest.head? ≠ some '"') :
    parseCSVAux ((escapeField f).data ++ rest) row [] false =
      parseCSVAux rest row f.data false := by
  unfold escapeField
  split
  · rw [show (("\"" ++ String.mk (escapeQuotes f.data) ++ "\"").data ++ rest)
        = '"' :: (escapeQuotes f.data ++ '"' :: rest) by simp]
    rw [parseCSVAux_quote_noQ, aux_consume_escaped f.data rest row [] h]
    simp
  · rename_i hns
    have hall : ∀ c ∈ f.data, c ≠ '"' ∧ c ≠ ',' ∧ c ≠ '\n' ∧ c ≠ '\r' := by
      intro c hc
      simp only [not_or] at hns
      obtain ⟨n1, n2, n3, n4⟩ := hns
      refine ⟨?_, ?_, ?_, ?_⟩ <;> rintro rfl <;> simp_all
    rw [aux_consume_plain f.data rest row [] hall]
    simp

theorem aux_consume_row (fields : List String) (hne : fields ≠ []) (rest : List Char)
    (row : List String) (h : rest.head? ≠ some '"') :
    parseCSVAux ((rowToCSV fields).data ++ rest) row [] false =
      parseCSVAux rest (row ++ fields.dropLast) (fields.getLast hne).data false := by
  induction fields generalizing row with
  | nil => cases hne rfl
  | cons f fs ih =>
      cases fs with
      | nil =>
          rw [show rowToCSV [f] = escapeField f by simp [rowToCSV, joinSep]]
          rw [aux_consume_field f rest row h]
          simp
      | cons g gs =>
          rw [show rowToCSV (f :: g :: gs) = escapeField f ++ ("," ++ rowToCSV (g :: gs)) by
            simp [rowToCSV, joinSep, List.map_cons, String.append_assoc]]
          rw [show (escapeField f ++ ("," ++ rowToCSV (g :: gs))).data ++ rest
              = (escapeField f).data ++ (',' :: ((rowToCSV (g :: gs)).data ++ rest)) by simp]
          rw [aux_consume_field f _ row (by simp)]
          rw [parseCSVAux_comma_noQ, mk_data]
          rw [ih (by simp) (row ++ [f])]
          have hg1 : (f :: g :: gs).dropLast = f :: (g :: gs).dropLast := by simp
          have hg2 : (f :: g :: gs).getLast (by simp) = (g :: gs).getLast (by simp) := by
            exact List.getLast_cons (by simp)
          rw [hg1, hg2]
          simp

theorem aux_consume_table (t : List (List String)) (hg : ∀ r ∈ t, r ≠ [] ∧ r ≠ [""]) :
    parseCSVAux (joinSep "\n" (t.map rowToCSV)).data [] [] false = t := by
  induction t with
  | nil => rfl
  | cons r t2 ih =>
      obtain ⟨hr1, hr2⟩ := hg r (by simp)
      have hcond : (r.getLast hr1).data ≠ [] ∨ ([] : List String) ++ r.dropLast ≠ [] := by
        by_cases hd : r.dropLast = []
        · left
          obtain ⟨x, rfl⟩ : ∃ x, r = [x] := by
            cases r with
            | nil => cases hr1 rfl
            | cons a as =>
                cases as with
                | nil => exact ⟨a, rfl⟩
                | cons b bs => simp [List.dropLast] at hd
          have hx : x ≠ "" := by
            intro hx
            exact hr2 (by rw [hx])
          simpa using data_ne_nil hx
        · right; simpa using hd
      cases t2 with
      | nil =>
          rw [show joinSep "\n" ([r].map rowToCSV) = rowToCSV r by simp [joinSep]]
          rw [show (rowToCSV r).data = (rowToCSV r).data ++ [] by simp]
          rw [aux_consume_row r hr1 [] [] (by simp)]
          rw [parseCSVAux_nil, if_pos hcond]
          simp [mk_data, List.dropLast_append_getLast hr1]
      | cons r2 t3 =>
          rw [show joinSep "\n" ((r :: r2 :: t3).map rowToCSV)
              = rowToCSV r ++ ("\n" ++ joinSep "\n" ((r2 :: t3).map rowToCSV)) by
            simp [joinSep, List.map_cons, String.append_assoc]]
          rw [show (rowToCSV r ++ ("\n" ++ joinSep "\n" ((r2 :: t3).map rowToCSV))).data
              = (rowToCSV r).data ++ ('\n' :: (joinSep "\n" ((r2 :: t3).map rowToCSV)).data) by
            simp]
          rw [aux_consume_row r hr1 _ [] (by simp)]
          rw [parseCSVAux_nl_noQ, if_pos hcond]
          rw [ih (fun x hx => hg x (by simp [hx]))]
          simp [mk_data, List.dropLast_append_getLast hr1]

theorem parseCSV_roundTrip (t : List (List String)) (hg : ∀ r ∈ t, r ≠ [] ∧ r ≠ [""]) :
    parseCSV (joinSep "\n" (t.map rowToCSV)) = t :=
  aux_consume_table t hg

/-! ### `transformData` lemmas -/

theorem transformDataLoop_eq_filter (skuIdx : Int) (rows : List (List String))
    (handleMap : List String) :
    transformDataLoop skuIdx rows handleMap =
      rows.filter (fun row => rowSKU row skuIdx ≠ "") := by
  induction rows generalizing handleMap with
  | nil => rfl
  | cons row rest ih =>
      by_cases h : rowSKU row skuIdx ≠ ""
      · simp [transformDataLoop, List.filter_cons, h, ih]
      · simp [transformDataLoop, List.filter_cons, h, ih]

theorem transformData_eq_spec (rows : List (List String)) :
    transformData rows = transformDataSpec rows := by
  cases rows with
  | nil => rfl
  | cons h t => simp [transformData, transformDataSpec, transformDataLoop_eq_filter]

theorem transformData_cons (h : List String) (t : List (List String)) :
    transformData (h :: t) =
      filterColumns h h ::
        (t.map (fun row => filterColumns h row)).filter
          (fun row => rowSKU row (variantSKUIndex (filterColumns h h)) ≠ "") := by
  simp [transformData, transformDataLoop_eq_filter]

/-! ### Column pruning and SKU lookup lemmas -/

theorem indicesToRemove_eq_nil (headers : List String)
    (h : ∀ x ∈ headers, isPrefixedHeader x = false) : indicesToRemove headers = [] := by
  have : headers.enum.filter (fun p => isPrefixedHeader p.2) = [] :=
    List.filter_eq_nil_iff.mpr (fun p hp => by
      simp [h p.2 (List.snd_mem_of_mem_enum hp)])
  simp [indicesToRemove, this]

theorem filterColumns_id (headers : List String)
    (h : indicesToRemove headers = []) (row : List String) :
    filterColumns headers row = row := by
  simp [filterColumns, h]

theorem variantSKUIndex_eq_neg (headers : List String) (h : "Variant SKU" ∉ headers) :
    variantSKUIndex headers = -1 := by
  have hnone : headers.findIdx? (fun x => x == "Variant SKU") = none :=
    List.findIdx?_eq_none_iff.mpr (fun x hx => by
      simp only [beq_eq_false_iff_ne, ne_eq]
      rintro rfl
      exact h hx)
  simp [variantSKUIndex, hnone]

theorem rowSKU_neg_one (row : List String) : rowSKU row (-1) = "" := rfl

theorem rowSKU_eq_empty_iff (row : List String) (idx : Int) :
    rowSKU row idx = "" ↔ trimStr (cellAt row idx) = "" := by
  by_cases h : cellAt row idx = ""
  · simp [rowSKU, h, show trimStr "" = "" from rfl]
  · simp [rowSKU, h]

/-! ### `createExport` path lemmas -/

theorem fileIsFalsy_path (p : String) (hp : p ≠ "") :
    fileIsFalsy (some (.path p)) = false := by
  rw [fileIsFalsy.eq_def]
  split <;> aesop

theorem createExport_falsy (env : Env) (file : Option FileInput) (fn : Option String)
    (h : fileIsFalsy file = true) :
    createExport env file fn = .ok { success := false, error := some "No file provided" } := by
  simp [createExport, h]

theorem createExport_no_filename (env : Env) (file : Option FileInput)
    (h : fileIsFalsy file = false) :
    createExport env file none = .error .typeError := by
  simp [createExport, h]

theorem createExport_fileObj_eq_buffer (env : Env) (b : Bytes) (fn : Option String) :
    createExport env (some (.fileObj b)) fn = createExport env (some (.buffer b)) fn := by
  simp [createExport, fileIsFalsy]

theorem createExport_path_read (env : Env) (p : String) (b : Bytes) (fn : Option String)
    (hp : p ≠ "") (h : env.readFileSync p = some b) :
    createExport env (some (.path p)) fn = createExport env (some (.buffer b)) fn := by
  simp [createExport, fileIsFalsy_path p hp, h,
    show fileIsFalsy (some (.buffer b)) = false from rfl]

theorem createExport_path_throw (env : Env) (p : String) (fname : String)
    (hp : p ≠ "") (h : env.readFileSync p = none) :
    createExport env (some (.path p)) (some fname) = .error (.fsError p) := by
  simp [createExport, fileIsFalsy_path p hp, h]

theorem createExport_other_invalid (env : Env) (fname : String) :
    createExport env (some .other) (some fname) =
      .ok { success := false, error := some "Invalid file format" } := by
  simp [createExport, fileIsFalsy]

theorem createExport_buffer_xlsx (env : Env) (b : Bytes) (fname : String)
    (hx : lowerEndsWith fname ".xlsx" = true) :
    createExport env (some (.buffer b)) (some fname) =
      (if 0 < (transformData (env.xlsxSheetToJson b)).length then
         .ok { success := true,
               filename := some (replaceSuffixCI fname ".xlsx" "-export.xlsx"),
               buffer := some (env.xlsxWrite (transformData (env.xlsxSheetToJson b))),
               rowCount := some (((transformData (env.xlsxSheetToJson b)).length : Int) - 1),
               data := some (transformData (env.xlsxSheetToJson b)) }
       else .ok { success := false, error := some "No data to export" }) := by
  simp [createExport, fileIsFalsy, hx]

theorem createExport_buffer_csv (env : Env) (b : Bytes) (fname : String)
    (hx : lowerEndsWith fname ".xlsx" = false) (hc : lowerEndsWith fname ".csv" = true) :
    createExport env (some (.buffer b)) (some fname) =
      (if 0 < (transformData (parseCSV b)).length then
         .ok { success := true,
               filename := some (replaceSuffixCI fname ".csv" "-export.csv"),
               buffer := some (joinSep "\n" ((transformData (parseCSV b)).map rowToCSV)),
               rowCount := some (((transformData (parseCSV b)).length : Int) - 1),
               data := some (transformData (parseCSV b)) }
       else .ok { success := false, error := some "No data to export" }) := by
  simp [createExport, fileIsFalsy, hx, hc]

theorem createExport_buffer_unsupported (env : Env) (b : Bytes) (fname : String)
    (hx : lowerEndsWith fname ".xlsx" = false) (hc : lowerEndsWith fname ".csv" = false) :
    createExport env (some (.buffer b)) (some fname) =
      .ok { success := false, error := some "Unsupported file format" } := by
  simp [createExport, fileIsFalsy, hx, hc]

/-- The possible `.ok` results of `createExport` on a provided buffer. -/
theorem createExport_ok_cases_buffer (env : Env) (b : Bytes) (fname : String)
    (r : ExportResult) (h : createExport env (some (.buffer b)) (some fname) = .ok r) :
    r = { success := false, error := some "Unsupported file format" } ∨
    r = { success := false, error := some "No data to export" } ∨
    (∃ rows, 0 < (transformData rows).length ∧
      ((lowerEndsWith fname ".xlsx" = true ∧ rows = env.xlsxSheetToJson b ∧
        r = { success := true,
              filename := some (replaceSuffixCI fname ".xlsx" "-export.xlsx"),
              buffer := some (env.xlsxWrite (transformData rows)),
              rowCount := some (((transformData rows).length : Int) - 1),
              data := some (transformData rows) }) ∨
       (lowerEndsWith fname ".xlsx" = false ∧ lowerEndsWith fname ".csv" = true ∧
        rows = parseCSV b ∧
        r = { success := true,
              filename := some (replaceSuffixCI fname ".csv" "-export.csv"),
              buffer := some (joinSep "\n" ((transformData rows).map rowToCSV)),
              rowCount := some (((transformData rows).length : Int) - 1),
              data := some (transformData rows) }))) := by
  by_cases hx : lowerEndsWith fname ".xlsx" = true
  · rw [createExport_buffer_xlsx env b fname hx] at h
    split at h
    · right; right
      exact ⟨env.xlsxSheetToJson b, by assumption, Or.inl ⟨hx, rfl, (Except.ok.inj h).symm⟩⟩
    · right; left; exact (Except.ok.inj h).symm
  · have hx' : lowerEndsWith fname ".xlsx" = false := by simpa using hx
    by_cases hc : lowerEndsWith fname ".csv" = true
    · rw [createExport_buffer_csv env b fname hx' hc] at h
      split at h
      · right; right
        exact ⟨parseCSV b, by assumption, Or.inr ⟨hx', hc, rfl, (Except.ok.inj h).symm⟩⟩
      · right; left; exact (Except.ok.inj h).symm
    · have hc' : lowerEndsWith fname ".csv" = false := by simpa using hc
      rw [createExport_buffer_unsupported env b fname hx' hc'] at h
      left; exact (Except.ok.inj h).symm

/-- Case analysis of every `.ok` result of `createExport`, over all input
shapes: each failure is one of the four tagged messages, and each success
comes from the XLSX or the CSV output branch over some parsed row list. -/
theorem createExport_ok_cases (env : Env) (file : Option FileInput) (fn : Option String)
    (r : ExportResult) (h : createExport env file fn = .ok r) :
    r = { success := false, error := some "No file provided" } ∨
    r = { success := false, error := some "Invalid file format" } ∨
    r = { success := false, error := some "Unsupported file format" } ∨
    r = { success := false, error := some "No data to export" } ∨
    (∃ fname b rows, fn = some fname ∧
      (file = some (.buffer b) ∨ file = some (.fileObj b) ∨
        (∃ p, p ≠ "" ∧ file = some (.path p) ∧ env.readFileSync p = some b)) ∧
      0 < (transformData rows).length ∧
      ((lowerEndsWith fname ".xlsx" = true ∧ rows = env.xlsxSheetToJson b ∧
        r = { success := true,
              filename := some (replaceSuffixCI fname ".xlsx" "-export.xlsx"),
              buffer := some (env.xlsxWrite (transformData rows)),
              rowCount := some (((transformData rows).length : Int) - 1),
              data := some (transformData rows) }) ∨
       (lowerEndsWith fname ".xlsx" = false ∧ lowerEndsWith fname ".csv" = true ∧
        rows = parseCSV b ∧
        r = { success := true,
              filename := some (replaceSuffixCI fname ".csv" "-export.csv"),
              buffer := some (joinSep "\n" ((transformData rows).map rowToCSV)),
              rowCount := some (((transformData rows).length : Int) - 1),
              data := some (transformData rows) }))) := by
  by_cases hf : fileIsFalsy file = true
  · rw [createExport_falsy env file fn hf] at h
    left; exact (Except.ok.inj h).symm
  · have hf' : fileIsFalsy file = false := by simpa using hf
    cases fn with
    | none => rw [createExport_no_filename env file hf'] at h; simp at h
    | some fname =>
        cases file with
        | none => simp [fileIsFalsy] at hf'
        | some fi =>
            cases fi with
            | other =>
                rw [createExport_other_invalid env fname] at h
                right; left; exact (Except.ok.inj h).symm
            | buffer b =>
                rcases createExport_ok_cases_buffer env b fname r h with h1 | h1 | ⟨rows, h1, h2⟩
                · right; right; left; exact h1
                · right; right; right; left; exact h1
                · right; right; right; right
                  exact ⟨fname, b, rows, rfl, Or.inl rfl, h1, h2⟩
            | fileObj b =>
                rw [createExport_fileObj_eq_buffer env b (some fname)] at h
                rcases createExport_ok_cases_buffer env b fname r h with h1 | h1 | ⟨rows, h1, h2⟩
                · right; right; left; exact h1
                · right; right; right; left; exact h1
                · right; right; right; right
                  exact ⟨fname, b, rows, rfl, Or.inr (Or.inl rfl), h1, h2⟩
            | path p =>
                have hp : p ≠ "" := by rintro rfl; simp [fileIsFalsy] at hf'
                cases hr : env.readFileSync p with
                | none => rw [createExport_path_throw env p fname hp hr] at h; simp at h
                | some b =>
                    rw [createExport_path_read env p b (some fname) hp hr] at h
                    rcases createExport_ok_cases_buffer env b fname r h with h1 | h1 | ⟨rows, h1, h2⟩
                    · right; right; left; exact h1
                    · right; right; right; left; exact h1
                    · right; right; right; right
                      exact ⟨fname, b, rows, rfl, Or.inr (Or.inr ⟨p, hp, rfl, hr⟩), h1, h2⟩

/-! ### Claim theorems -/

/-- Claim C8 (confirmed): `transformData` filters data rows only by SKU
presence, never by uniqueness; the internal handle set is never read, so the
loop equals a plain filter by non-empty trimmed SKU for any handle-set
contents, and `transformData` equals the reference definition
`transformDataSpec` that omits the handle set. -/
theorem c8_handle_set_unobservable :
    (∀ (skuIdx : Int) (rows : List (List String)) (handleMap : List String),
        transformDataLoop skuIdx rows handleMap =
          rows.filter (fun row => rowSKU row skuIdx ≠ "")) ∧
    (∀ rows : List (List String), transformData rows = transformDataSpec rows) :=
  ⟨transformDataLoop_eq_filter, transformData_eq_spec⟩

/-- Claim C6 (confirmed): in `parseCSV`'s loop, a doubled `""` inside a
quoted field yields one literal quote; comma, newline and carriage return
lose their delimiter meaning inside quotes (in particular a record
terminator inside quotes does not end the record, it is appended to the
field); and trailing content with no terminating newline still yields a
final record. -/
theorem c6_quote_semantics :
    (∀ (rest : List Char) (row : List String) (field : List Char),
        parseCSVAux ('"' :: '"' :: rest) row field true =
          parseCSVAux rest row (field ++ ['"']) true) ∧
    (∀ (rest : List Char) (row : List String) (field : List Char),
        parseCSVAux (',' :: rest) row field true =
          parseCSVAux rest row (field ++ [',']) true) ∧
    (∀ (rest : List Char) (row : List String) (field : List Char),
        parseCSVAux ('\n' :: rest) row field true =
          parseCSVAux rest row (field ++ ['\n']) true) ∧
    (∀ (rest : List Char) (row : List String) (field : List Char),
        parseCSVAux ('\r' :: rest) row field true =
          parseCSVAux rest row (field ++ ['\r']) true) ∧
    (∀ (row : List String) (field : List Char), field ≠ [] ∨ row ≠ [] →
        parseCSVAux [] row field false = [row ++ [String.mk field]]) :=
  ⟨parseCSVAux_quote2_inQ,
   fun rest row field => parseCSVAux_char_inQ ',' (by decide) rest row field,
   fun rest row field => parseCSVAux_char_inQ '\n' (by decide) rest row field,
   fun rest row field => parseCSVAux_char_inQ '\r' (by decide) rest row field,
   fun row field hne => by rw [parseCSVAux_nil, if_pos hne]⟩

/-- Witness for C6 at concrete states. -/
theorem c6_quote_semantics_witness :
    parseCSVAux ['"', '"'] [] ['a'] true = parseCSVAux [] [] (['a'] ++ ['"']) true ∧
    parseCSVAux [','] [] [] true = parseCSVAux [] [] ([] ++ [',']) true ∧
    parseCSVAux ['\n'] [] [] true = parseCSVAux [] [] ([] ++ ['\n']) true ∧
    parseCSVAux ['\r'] [] [] true = parseCSVAux [] [] ([] ++ ['\r']) true ∧
    parseCSVAux [] ["x"] ['y'] false = [["x"] ++ [String.mk ['y']]] :=
  ⟨c6_quote_semantics.1 [] [] ['a'],
   c6_quote_semantics.2.1 [] [] [],
   c6_quote_semantics.2.2.1 [] [] [],
   c6_quote_semantics.2.2.2.1 [] [] [],
   c6_quote_semantics.2.2.2.2 ["x"] ['y'] (Or.inl (by decide))⟩

/-- Claim C7 (corrected): serializing each row with `rowToCSV`, joining the
lines with `"\n"` and re-parsing with `parseCSV` restores the table, for
every table whose rows each have at least one cell and are not a single
empty cell.  (As stated the claim fails for the table `[[""]]`, whose only
row serializes to an empty line that the parser drops.) -/
theorem c7_roundtrip (t : List (List String)) (hg : ∀ r ∈ t, r ≠ [] ∧ r ≠ [""]) :
    parseCSV (joinSep "\n" (t.map rowToCSV)) = t :=
  parseCSV_roundTrip t hg

/-- Witness for C7 on a table exercising commas, quotes and newlines. -/
theorem c7_roundtrip_witness :
    parseCSV (joinSep "\n" ([["a", "b,c"], ["d\"e", ""], ["", "x\ny"]].map rowToCSV)) =
      [["a", "b,c"], ["d\"e", ""], ["", "x\ny"]] :=
  c7_roundtrip [["a", "b,c"], ["d\"e", ""], ["", "x\ny"]] (by decide)

/-- Counterexample to C7 as stated: the table `[[""]]` (no cell needs any
quoting) does not survive the round trip. -/
theorem c7_roundtrip_cex :
    parseCSV (joinSep "\n" ([[""]].map rowToCSV)) ≠ [[""]] := by decide

/-- Claim C5 (corrected): on the scenario input the `Google Category`
column is removed, row `h2` is dropped, `rowCount = 1`, and the output
buffer decodes to `"Handle,Variant SKU\nh1,SKU1"` — without the trailing
newline the claim asserts, because the source joins lines with `"\n"` and
appends no final terminator. -/
theorem c5_scenario :
    createExport envEmpty
        (some (.buffer "Handle,Variant SKU,Google Category\nh1,SKU1,Cat\nh2,,Cat2\n"))
        (some "in.csv") =
      .ok { success := true, filename := some "in-export.csv",
            buffer := some "Handle,Variant SKU\nh1,SKU1", rowCount := some 1,
            data := some [["Handle", "Variant SKU"], ["h1", "SKU1"]] } := by decide

/-- Counterexample to C5 as stated: the actual output buffer lacks the
final `"\n"` the claim asserts. -/
theorem c5_scenario_cex :
    createExport envEmpty
        (some (.buffer "Handle,Variant SKU,Google Category\nh1,SKU1,Cat\nh2,,Cat2\n"))
        (some "in.csv") =
      .ok { success := true, filename := some "in-export.csv",
            buffer := some "Handle,Variant SKU\nh1,SKU1", rowCount := some 1,
            data := some [["Handle", "Variant SKU"], ["h1", "SKU1"]] } ∧
    some ("Handle,Variant SKU\nh1,SKU1" : Bytes) ≠
      some ("Handle,Variant SKU\nh1,SKU1\n" : Bytes) := by decide

/-- Helper for C1: with no `Variant SKU` column in the pruned header every
data row is dropped, leaving only the pruned header row. -/
theorem transformData_no_sku (headers : List String) (dataRows : List (List String))
    (hsku : "Variant SKU" ∉ filterColumns headers headers) :
    transformData (headers :: dataRows) = [filterColumns headers headers] := by
  rw [transformData_cons, variantSKUIndex_eq_neg _ hsku]
  rw [List.filter_eq_nil_iff.mpr (fun row _ => by simp [rowSKU_neg_one])]

/-- Claim C1 (corrected): for every input whose file normalizes to a buffer
(a raw buffer, a buffer-holder object, or a path whose read succeeds) and
whose parsed table — the CSV parse or the XLSX first sheet, per the
filename's format — has a header row whose pruned header contains no cell
equal to `"Variant SKU"`, every data row is indeed dropped — but
`createExport` does NOT fail with `"No data to export"`: the header-only
table still has length 1, so it returns success with `rowCount = 0`, the
pruned header as only data row, and its serialization as buffer. -/
theorem c1_no_sku_column :
    (∀ (env : Env) (file : Option FileInput) (b : Bytes) (fname : String)
        (headers : List String) (dataRows : List (List String)),
        (file = some (.buffer b) ∨ file = some (.fileObj b) ∨
          (∃ p, p ≠ "" ∧ file = some (.path p) ∧ env.readFileSync p = some b)) →
        parseCSV b = headers :: dataRows →
        "Variant SKU" ∉ filterColumns headers headers →
        lowerEndsWith fname ".xlsx" = false →
        lowerEndsWith fname ".csv" = true →
        createExport env file (some fname) =
          .ok { success := true,
                filename := some (replaceSuffixCI fname ".csv" "-export.csv"),
                buffer := some (rowToCSV (filterColumns headers headers)),
                rowCount := some 0,
                data := some [filterColumns headers headers] }) ∧
    (∀ (env : Env) (file : Option FileInput) (b : Bytes) (fname : String)
        (headers : List String) (dataRows : List (List String)),
        (file = some (.buffer b) ∨ file = some (.fileObj b) ∨
          (∃ p, p ≠ "" ∧ file = some (.path p) ∧ env.readFileSync p = some b)) →
        env.xlsxSheetToJson b = headers :: dataRows →
        "Variant SKU" ∉ filterColumns headers headers →
        lowerEndsWith fname ".xlsx" = true →
        createExport env file (some fname) =
          .ok { success := true,
                filename := some (replaceSuffixCI fname ".xlsx" "-export.xlsx"),
                buffer := some (env.xlsxWrite [filterColumns headers headers]),
                rowCount := some 0,
                data := some [filterColumns headers headers] }) := by
  constructor
  · intro env file b fname headers dataRows hshape hparse hsku hx hc
    have hbuf : createExport env file (some fname) =
        createExport env (some (.buffer b)) (some fname) := by
      rcases hshape with rfl | rfl | ⟨p, hp, rfl, hread⟩
      · rfl
      · exact createExport_fileObj_eq_buffer env b (some fname)
      · exact createExport_path_read env p b (some fname) hp hread
    rw [hbuf, createExport_buffer_csv env b fname hx hc, hparse,
      transformData_no_sku headers dataRows hsku]
    norm_num [joinSep]
  · intro env file b fname headers dataRows hshape hrows hsku hx
    have hbuf : createExport env file (some fname) =
        createExport env (some (.buffer b)) (some fname) := by
      rcases hshape with rfl | rfl | ⟨p, hp, rfl, hread⟩
      · rfl
      · exact createExport_fileObj_eq_buffer env b (some fname)
      · exact createExport_path_read env p b (some fname) hp hread
    rw [hbuf, createExport_buffer_xlsx env b fname hx, hrows,
      transformData_no_sku headers dataRows hsku]
    norm_num

/-- Witness for C1: a concrete header-only CSV outcome on a raw buffer, and
a concrete header-only XLSX outcome on a buffer-holder object. -/
theorem c1_no_sku_column_witness :
    createExport envEmpty (some (.buffer "A,B\n1,2\n")) (some "t.csv") =
      .ok { success := true,
            filename := some (replaceSuffixCI "t.csv" ".csv" "-export.csv"),
            buffer := some (rowToCSV (filterColumns ["A", "B"] ["A", "B"])),
            rowCount := some 0,
            data := some [filterColumns ["A", "B"] ["A", "B"]] } ∧
    createExport (⟨fun _ => none, fun _ => [["A", "B"], ["1", "2"]], fun _ => "wb"⟩ : Env)
        (some (.fileObj "bytes")) (some "t.XLSX") =
      .ok { success := true,
            filename := some (replaceSuffixCI "t.XLSX" ".xlsx" "-export.xlsx"),
            buffer := some ((⟨fun _ => none, fun _ => [["A", "B"], ["1", "2"]],
                fun _ => "wb"⟩ : Env).xlsxWrite [filterColumns ["A", "B"] ["A", "B"]]),
            rowCount := some 0,
            data := some [filterColumns ["A", "B"] ["A", "B"]] } :=
  ⟨c1_no_sku_column.1 envEmpty (some (.buffer "A,B\n1,2\n")) "A,B\n1,2\n" "t.csv"
      ["A", "B"] [["1", "2"]] (Or.inl rfl) (by decide) (by decide) (by decide) (by decide),
   c1_no_sku_column.2 (⟨fun _ => none, fun _ => [["A", "B"], ["1", "2"]], fun _ => "wb"⟩ : Env)
      (some (.fileObj "bytes")) "bytes" "t.XLSX" ["A", "B"] [["1", "2"]]
      (Or.inr (Or.inl rfl)) rfl (by decide) (by decide)⟩

/-- Counterexample to C1 as stated: a CSV with a header but no
`Variant SKU` column makes `createExport` return success with
`rowCount = 0`, not the claimed `success:false`/`"No data to export"`. -/
theorem c1_no_sku_column_cex :
    parseCSV "A,B\n1,2\n" = [["A", "B"], ["1", "2"]] ∧
    "Variant SKU" ∉ filterColumns ["A", "B"] ["A", "B"] ∧
    createExport envEmpty (some (.buffer "A,B\n1,2\n")) (some "t.csv") ≠
      .ok { success := false, error := some "No data to export" } ∧
    createExport envEmpty (some (.buffer "A,B\n1,2\n")) (some "t.csv") =
      .ok { success := true, filename := some "t-export.csv", buffer := some "A,B",
            rowCount := some 0, data := some [["A", "B"]] } := by decide

/-- Helper for C2: on a buffer input with a string filename, `createExport`
always returns a result (it throws only on a missing filename or a failing
path read). -/
theorem createExport_buffer_total (env : Env) (b : Bytes) (fname : String) :
    ∃ r, createExport env (some (.buffer b)) (some fname) = .ok r := by
  by_cases hx : lowerEndsWith fname ".xlsx" = true
  · rw [createExport_buffer_xlsx env b fname hx]
    split <;> exact ⟨_, rfl⟩
  · have hx' : lowerEndsWith fname ".xlsx" = false := by simpa using hx
    by_cases hc : lowerEndsWith fname ".csv" = true
    · rw [createExport_buffer_csv env b fname hx' hc]
      split <;> exact ⟨_, rfl⟩
    · have hc' : lowerEndsWith fname ".csv" = false := by simpa using hc
      exact ⟨_, createExport_buffer_unsupported env b fname hx' hc'⟩

/-- Claim C2 (corrected): `createExport` returns a tagged result object for
a falsy file, for every buffer or buffer-holder file with a string filename,
and for every path file whose read succeeds; and every `success:false`
result carries an error message.  (As stated the claim is false: the entry
point has no `try`/`catch`, so a missing filename or a failing
`fs.readFileSync` escapes as a thrown error — see the counterexample.) -/
theorem c2_tagged_results :
    (∀ (env : Env) (file : Option FileInput) (fn : Option String),
        fileIsFalsy file = true →
        createExport env file fn =
          .ok { success := false, error := some "No file provided" }) ∧
    (∀ (env : Env) (b : Bytes) (fname : String),
        ∃ r, createExport env (some (.buffer b)) (some fname) = .ok r) ∧
    (∀ (env : Env) (b : Bytes) (fname : String),
        ∃ r, createExport env (some (.fileObj b)) (some fname) = .ok r) ∧
    (∀ (env : Env) (fname : String),
        ∃ r, createExport env (some .other) (some fname) = .ok r) ∧
    (∀ (env : Env) (p : String) (b : Bytes) (fname : String), p ≠ "" →
        env.readFileSync p = some b →
        ∃ r, createExport env (some (.path p)) (some fname) = .ok r) ∧
    (∀ (env : Env) (file : Option FileInput) (fn : Option String) (r : ExportResult),
        createExport env file fn = .ok r → r.success = false → ∃ m, r.error = some m) := by
  refine ⟨createExport_falsy, createExport_buffer_total, ?_, ?_, ?_, ?_⟩
  · intro env b fname
    rw [createExport_fileObj_eq_buffer]
    exact createExport_buffer_total env b fname
  · intro env fname
    exact ⟨_, createExport_other_invalid env fname⟩
  · intro env p b fname hp h
    rw [createExport_path_read env p b (some fname) hp h]
    exact createExport_buffer_total env b fname
  · intro env file fn r h hs
    rcases createExport_ok_cases env file fn r h with h1 | h1 | h1 | h1 |
      ⟨fname, b, rows, _, _, _, ⟨_, _, h1⟩ | ⟨_, _, _, h1⟩⟩
    · exact ⟨"No file provided", by rw [h1]⟩
    · exact ⟨"Invalid file format", by rw [h1]⟩
    · exact ⟨"Unsupported file format", by rw [h1]⟩
    · exact ⟨"No data to export", by rw [h1]⟩
    · rw [h1] at hs; simp at hs
    · rw [h1] at hs; simp at hs

/-- Witness for C2 at concrete inputs. -/
theorem c2_tagged_results_witness :
    createExport envEmpty none none =
      .ok { success := false, error := some "No file provided" } ∧
    (∃ r, createExport envEmpty (some (.buffer "x")) (some "y") = .ok r) ∧
    (∃ r, createExport envEmpty (some (.fileObj "x")) (some "y.csv") = .ok r) ∧
    (∃ r, createExport envEmpty (some .other) (some "y.csv") = .ok r) ∧
    (∃ m, ({ success := false, error := some "No file provided"} : ExportResult).error
        = some m) :=
  ⟨c2_tagged_results.1 envEmpty none none (by decide),
   c2_tagged_results.2.1 envEmpty "x" "y",
   c2_tagged_results.2.2.1 envEmpty "x" "y.csv",
   c2_tagged_results.2.2.2.1 envEmpty "y.csv",
   c2_tagged_results.2.2.2.2.2 envEmpty none none _ (by decide) (by decide)⟩

/-- Counterexample to C2 as stated: with a provided buffer but no filename
the entry point throws a `TypeError` (`filename.toLowerCase()` on
`undefined`), and a path whose read fails escapes as a thrown filesystem
error — neither is a tagged result. -/
theorem c2_tagged_results_cex :
    createExport envEmpty (some (.buffer "x")) none = .error .typeError ∧
    createExport envEmpty (some (.path "f.csv")) (some "f.csv") =
      .error (.fsError "f.csv") := by decide

/-- Claim C3 (corrected): for a file that normalizes to a buffer (a raw
buffer or a buffer-holder object), an unsupported filename suffix yields
`{success:false, error:"Unsupported file format"}` with no parsing
attempted (the result is independent of the file bytes and of the
environment's parsers, which are universally quantified here).  But the
claim's "no further work" is false: input normalization runs FIRST, so an
invalid-shape file yields `"Invalid file format"` even with an unsupported
suffix, and a path file whose read fails throws. -/
theorem c3_unsupported_after_normalization (env : Env) (b : Bytes) (fname : String)
    (hx : lowerEndsWith fname ".xlsx" = false) (hc : lowerEndsWith fname ".csv" = false) :
    createExport env (some (.buffer b)) (some fname) =
      .ok { success := false, error := some "Unsupported file format" } ∧
    createExport env (some (.fileObj b)) (some fname) =
      .ok { success := false, error := some "Unsupported file format" } ∧
    (∀ p : String, p ≠ "" → env.readFileSync p = none →
      createExport env (some (.path p)) (some fname) = .error (.fsError p)) ∧
    createExport env (some .other) (some fname) =
      .ok { success := false, error := some "Invalid file format" } := by
  refine ⟨createExport_buffer_unsupported env b fname hx hc, ?_, ?_, ?_⟩
  · rw [createExport_fileObj_eq_buffer]
    exact createExport_buffer_unsupported env b fname hx hc
  · intro p hp h
    exact createExport_path_throw env p fname hp h
  · exact createExport_other_invalid env fname

/-- Witness for C3 at concrete inputs. -/
theorem c3_unsupported_witness :
    createExport envEmpty (some (.buffer "a,b")) (some "data.txt") =
      .ok { success := false, error := some "Unsupported file format" } ∧
    createExport envEmpty (some (.fileObj "a,b")) (some "data.txt") =
      .ok { success := false, error := some "Unsupported file format" } ∧
    createExport envEmpty (some (.path "q.txt")) (some "data.txt") =
      .error (.fsError "q.txt") ∧
    createExport envEmpty (some .other) (some "data.txt") =
      .ok { success := false, error := some "Invalid file format" } := by
  obtain ⟨h1, h2, h3, h4⟩ :=
    c3_unsupported_after_normalization envEmpty "a,b" "data.txt" (by decide) (by decide)
  exact ⟨h1, h2, h3 "q.txt" (by decide) rfl, h4⟩

/-- Counterexample to C3 as stated: a provided (non-null) file of invalid
shape with the unsupported filename `"data.txt"` yields
`"Invalid file format"`, not the claimed `"Unsupported file format"` —
normalization is attempted before the format check. -/
theorem c3_unsupported_cex :
    createExport envEmpty (some .other) (some "data.txt") =
      .ok { success := false, error := some "Invalid file format" } ∧
    ("Invalid file format" : String) ≠ "Unsupported file format" ∧
    createExport envEmpty (some (.path "data.txt")) (some "data.txt") =
      .error (.fsError "data.txt") := by decide

/-- Claim C4 (confirmed): for a CSV whose header contains `"Variant SKU"`
and no prefixed column, the returned `rowCount` equals the number of data
rows minus the number of data rows whose cell at the SKU column index is
empty or whitespace-only (missing/out-of-range cells count as empty). -/
theorem c4_rowcount (env : Env) (b : Bytes) (fname : String)
    (headers : List String) (dataRows : List (List String))
    (hparse : parseCSV b = headers :: dataRows)
    (_hmem : "Variant SKU" ∈ headers)
    (hnopfx : ∀ x ∈ headers, isPrefixedHeader x = false)
    (hx : lowerEndsWith fname ".xlsx" = false)
    (hc : lowerEndsWith fname ".csv" = true) :
    ∃ r, createExport env (some (.buffer b)) (some fname) = .ok r ∧
      r.success = true ∧
      r.rowCount = some ((dataRows.length : Int) -
        ((dataRows.filter
            (fun row => trimStr (cellAt row (variantSKUIndex headers)) = "")).length : Int)) := by
  have hid := filterColumns_id headers (indicesToRemove_eq_nil headers hnopfx)
  have hmap : dataRows.map (fun row => filterColumns headers row) = dataRows := by
    rw [show (fun row => filterColumns headers row) = fun row : List String => id row by
      funext row; exact hid row]
    exact List.map_id dataRows
  have htd : transformData (headers :: dataRows) =
      headers :: dataRows.filter (fun row => rowSKU row (variantSKUIndex headers) ≠ "") := by
    rw [transformData_cons, hid headers, hmap]
  rw [createExport_buffer_csv env b fname hx hc, hparse, htd, if_pos (by simp)]
  refine ⟨_, rfl, rfl, ?_⟩
  have hdrop : dataRows.filter
        (fun row => !decide (rowSKU row (variantSKUIndex headers) ≠ ""))
      = dataRows.filter
        (fun row => decide (trimStr (cellAt row (variantSKUIndex headers)) = "")) :=
    List.filter_congr (fun row _ => by
      simp [rowSKU_eq_empty_iff row (variantSKUIndex headers)])
  have hcompl : dataRows.length =
      (dataRows.filter (fun row => decide (rowSKU row (variantSKUIndex headers) ≠ ""))).length
      + (dataRows.filter
          (fun row => decide (trimStr (cellAt row (variantSKUIndex headers)) = ""))).length := by
    rw [← hdrop]
    exact List.length_eq_length_filter_add _
  rw [hcompl]
  simp only [List.length_cons]
  push_cast
  ring_nf

/-- Witness for C4 on a CSV with one kept and two dropped data rows. -/
theorem c4_rowcount_witness :
    ∃ r, createExport envEmpty
        (some (.buffer "Variant SKU,Name\nS1,a\n ,b\n,c\n")) (some "f.csv") = .ok r ∧
      r.success = true ∧
      r.rowCount = some ((([["S1", "a"], [" ", "b"], ["", "c"]] : List (List String)).length : Int) -
        ((([["S1", "a"], [" ", "b"], ["", "c"]] : List (List String)).filter
            (fun row =>
              trimStr (cellAt row (variantSKUIndex ["Variant SKU", "Name"])) = "")).length : Int)) :=
  c4_rowcount envEmpty "Variant SKU,Name\nS1,a\n ,b\n,c\n" "f.csv"
    ["Variant SKU", "Name"] [["S1", "a"], [" ", "b"], ["", "c"]]
    (by decide) (by decide) (by decide) (by decide) (by decide)

/-- Claim C9 (confirmed): on every successful export the output filename
replaces a trailing `.xlsx`/`.csv` suffix (case-insensitively) with
`-export.xlsx`/`-export.csv` respectively; the stated examples hold, and a
non-matching suffix leaves the filename unmodified. -/
theorem c9_output_filename :
    (∀ (env : Env) (file : Option FileInput) (fname : String) (r : ExportResult),
        createExport env file (some fname) = .ok r → r.success = true →
        r.filename = some (if lowerEndsWith fname ".xlsx" = true
          then replaceSuffixCI fname ".xlsx" "-export.xlsx"
          else replaceSuffixCI fname ".csv" "-export.csv")) ∧
    replaceSuffixCI "products.xlsx" ".xlsx" "-export.xlsx" = "products-export.xlsx" ∧
    replaceSuffixCI "products.csv" ".csv" "-export.csv" = "products-export.csv" ∧
    replaceSuffixCI "products.CSV" ".csv" "-export.csv" = "products-export.csv" ∧
    (∀ (s sfx repl : String), lowerEndsWith s sfx = false →
        replaceSuffixCI s sfx repl = s) := by
  refine ⟨?_, by decide, by decide, by decide, ?_⟩
  · intro env file fname r h hs
    rcases createExport_ok_cases env file (some fname) r h with h1 | h1 | h1 | h1 |
      ⟨fname', b, rows, hfn, hprov, hlen, ⟨hx, hrows, h1⟩ | ⟨hx, hc, hrows, h1⟩⟩
    · rw [h1] at hs; simp at hs
    · rw [h1] at hs; simp at hs
    · rw [h1] at hs; simp at hs
    · rw [h1] at hs; simp at hs
    · obtain rfl : fname = fname' := Option.some.inj hfn
      rw [h1, if_pos hx]
    · obtain rfl : fname = fname' := Option.some.inj hfn
      rw [h1, if_neg (by simp [hx])]
  · intro s sfx repl h
    simp [replaceSuffixCI, h]

/-- Witness for C9 at a concrete successful CSV export. -/
theorem c9_output_filename_witness :
    ({ success := true, filename := some "products-export.csv",
       buffer := some "Variant SKU\nS1", rowCount := some 1,
       data := some [["Variant SKU"], ["S1"]] } : ExportResult).filename =
      some (if lowerEndsWith "products.csv" ".xlsx" = true
        then replaceSuffixCI "products.csv" ".xlsx" "-export.xlsx"
        else replaceSuffixCI "products.csv" ".csv" "-export.csv") :=
  c9_output_filename.1 envEmpty (some (.buffer "Variant SKU\nS1")) "products.csv"
    { success := true, filename := some "products-export.csv",
      buffer := some "Variant SKU\nS1", rowCount := some 1,
      data := some [["Variant SKU"], ["S1"]] }
    (by decide) (by decide)

/-- Claim C10 (confirmed): every successful result carries a filename, a
buffer, `data` and `rowCount` together; relative to the input actually
parsed — the CSV parse or the XLSX first sheet of the buffer the provided
file normalizes to — `data` is non-empty, its first row is the pruned
header row of that parsed table, `rowCount = data.length - 1` (possibly 0),
and the kept data rows are exactly the SKU filter of the pruned parsed data
rows, hence a sublist of them in their original relative order. -/
theorem c10_success_invariants :
    ∀ (env : Env) (file : Option FileInput) (fn : Option String) (r : ExportResult),
      createExport env file fn = .ok r → r.success = true →
      (∃ f, r.filename = some f) ∧ (∃ bo, r.buffer = some bo) ∧
      ∃ (b : Bytes) (headers : List String) (rest : List (List String))
        (d : List (List String)),
        (file = some (.buffer b) ∨ file = some (.fileObj b) ∨
          (∃ p, p ≠ "" ∧ file = some (.path p) ∧ env.readFileSync p = some b)) ∧
        (∃ fname, fn = some fname ∧
          ((lowerEndsWith fname ".xlsx" = true ∧
              env.xlsxSheetToJson b = headers :: rest) ∨
           (lowerEndsWith fname ".xlsx" = false ∧ lowerEndsWith fname ".csv" = true ∧
              parseCSV b = headers :: rest))) ∧
        r.data = some d ∧
        d = filterColumns headers headers ::
          ((rest.map (fun row => filterColumns headers row)).filter
            (fun row =>
              rowSKU row (variantSKUIndex (filterColumns headers headers)) ≠ "")) ∧
        d ≠ [] ∧ r.rowCount = some ((d.length : Int) - 1) ∧
        d.tail.Sublist (rest.map (fun row => filterColumns headers row)) := by
  intro env file fn r h hs
  rcases createExport_ok_cases env file fn r h with h1 | h1 | h1 | h1 |
    ⟨fname, b, rows, hfn, hprov, hlen, ⟨hx, hrows, h1⟩ | ⟨hx, hc, hrows, h1⟩⟩
  · rw [h1] at hs; simp at hs
  · rw [h1] at hs; simp at hs
  · rw [h1] at hs; simp at hs
  · rw [h1] at hs; simp at hs
  · subst h1
    subst hfn
    have hne : rows ≠ [] := by
      intro hr
      rw [hr] at hlen
      simp [transformData] at hlen
    obtain ⟨headers, rest, rfl⟩ : ∃ hd tl, rows = hd :: tl := by
      cases rows with
      | nil => cases hne rfl
      | cons a l => exact ⟨a, l, rfl⟩
    refine ⟨⟨_, rfl⟩, ⟨_, rfl⟩, b, headers, rest, transformData (headers :: rest),
      hprov, ⟨fname, rfl, Or.inl ⟨hx, hrows.symm⟩⟩, rfl,
      transformData_cons headers rest, ?_, rfl, ?_⟩
    · intro hnil
      rw [hnil] at hlen
      simp at hlen
    · rw [transformData_cons, List.tail_cons]
      exact List.filter_sublist _
  · subst h1
    subst hfn
    have hne : rows ≠ [] := by
      intro hr
      rw [hr] at hlen
      simp [transformData] at hlen
    obtain ⟨headers, rest, rfl⟩ : ∃ hd tl, rows = hd :: tl := by
      cases rows with
      | nil => cases hne rfl
      | cons a l => exact ⟨a, l, rfl⟩
    refine ⟨⟨_, rfl⟩, ⟨_, rfl⟩, b, headers, rest, transformData (headers :: rest),
      hprov, ⟨fname, rfl, Or.inr ⟨hx, hc, hrows.symm⟩⟩, rfl,
      transformData_cons headers rest, ?_, rfl, ?_⟩
    · intro hnil
      rw [hnil] at hlen
      simp at hlen
    · rw [transformData_cons, List.tail_cons]
      exact List.filter_sublist _

/-- Witness for C10 at a concrete successful export, with the parsed input
exhibited. -/
theorem c10_success_invariants_witness :
    (∃ f, (⟨true, some "g-export.csv", some "Variant SKU\nS2", some 1,
        some [["Variant SKU"], ["S2"]], none⟩ : ExportResult).filename = some f) ∧
    (∃ bo, (⟨true, some "g-export.csv", some "Variant SKU\nS2", some 1,
        some [["Variant SKU"], ["S2"]], none⟩ : ExportResult).buffer = some bo) ∧
    ∃ (b : Bytes) (headers : List String) (rest : List (List String))
      (d : List (List String)),
      (some (FileInput.buffer "Variant SKU\nS2") = some (.buffer b) ∨
        some (FileInput.buffer "Variant SKU\nS2") = some (.fileObj b) ∨
        (∃ p, p ≠ "" ∧ some (FileInput.buffer "Variant SKU\nS2") = some (.path p) ∧
          envEmpty.readFileSync p = some b)) ∧
      (∃ fname, (some "g.csv" : Option String) = some fname ∧
        ((lowerEndsWith fname ".xlsx" = true ∧
            envEmpty.xlsxSheetToJson b = headers :: rest) ∨
         (lowerEndsWith fname ".xlsx" = false ∧ lowerEndsWith fname ".csv" = true ∧
            parseCSV b = headers :: rest))) ∧
      (⟨true, some "g-export.csv", some "Variant SKU\nS2", some 1,
        some [["Variant SKU"], ["S2"]], none⟩ : ExportResult).data = some d ∧
      d = filterColumns headers headers ::
        ((rest.map (fun row => filterColumns headers row)).filter
          (fun row =>
            rowSKU row (variantSKUIndex (filterColumns headers headers)) ≠ "")) ∧
      d ≠ [] ∧
      (⟨true, some "g-export.csv", some "Variant SKU\nS2", some 1,
        some [["Variant SKU"], ["S2"]], none⟩ : ExportResult).rowCount =
          some ((d.length : Int) - 1) ∧
      d.tail.Sublist (rest.map (fun row => filterColumns headers row)) :=
  c10_success_invariants envEmpty (some (.buffer "Variant SKU\nS2")) (some "g.csv")
    ⟨true, some "g-export.csv", some "Variant SKU\nS2", some 1,
      some [["Variant SKU"], ["S2"]], none⟩
    (by decide) (by decide)

end GoossensExporter
